import Mathlib

/-!
Shallow embedding of the GrowiBacK contact-form backend (`src/app.py`).

The program is a Quart application with two handlers:

* `create_contact` (POST /api/contact, lines 88-130): parses the JSON body,
  checks the required fields `name`, `email`, `message` in that order,
  checks that the email contains both "@" and ".", inserts a row with the
  trimmed (and, for email, lower-cased) values, and returns 201 with the
  new id.  Any exception is caught and turned into a generic 500.
* `get_contacts` (GET /api/contacts, lines 133-155): selects all rows
  ordered by `created_at` descending and returns them with their count;
  any exception becomes the same generic 500.

JSON values are modelled by `JVal`, a request body by an association list,
Python truthiness by `pyTruthy`, Python `str.strip` / `str.lower` /
`c in s` by `pyStrip` / `pyLower` / `pyHasChar`, and uncaught Python
exceptions by `PyExc`.  The database is a list of rows plus the next
auto-increment id; the wall clock stamped into `created_at` is a `Nat`
parameter, and an injected boolean `dbFail` models a database error raised
by `cursor.execute`.  The number of `pool.acquire` calls performed is
returned alongside each outcome.
-/

namespace GrowiBack

/-- A JSON value as it can appear in a submitted request body:
a string, a number, a boolean, or null. -/
inductive JVal where
  | js (s : String)
  | jn (n : Int)
  | jb (b : Bool)
  | jnull
deriving DecidableEq, Repr

/-- Python truthiness of a JSON value: empty string, zero, false and
null are falsy. -/
def JVal.truthy : JVal → Bool
  | .js s => !(s == "")
  | .jn n => !(n == 0)
  | .jb b => b
  | .jnull => false

/-- A parsed JSON object (the request body), as an association list. -/
abbrev JObj := List (String × JVal)

/-- Python `dict.get(k)`: the value of the first binding of `k`, if any. -/
def dictGet (d : JObj) (k : String) : Option JVal :=
  (d.find? (fun p => p.1 == k)).map (fun p => p.2)

/-- Python `dict.get(k, dflt)`: the default is used only when the key is
absent; a key bound to null yields null, not the default. -/
def dictGetD (d : JObj) (k : String) (dflt : JVal) : JVal :=
  match dictGet d k with
  | some v => v
  | none => dflt

/-- Truthiness of `data.get(field)`: a missing key (Python `None`) is falsy. -/
def pyTruthy : Option JVal → Bool
  | none => false
  | some v => v.truthy

/-- The whitespace characters stripped by Python `str.strip()`
(restricted to the ASCII range). -/
def isPySpace (c : Char) : Bool :=
  c == ' ' || c == '\t' || c == '\n' || c == '\r' || c == '\x0b' || c == '\x0c'

/-- Python `s.strip()`: drop leading and trailing whitespace. -/
def pyStrip (s : String) : String :=
  ⟨((s.data.dropWhile isPySpace).reverse.dropWhile isPySpace).reverse⟩

/-- Python `str.lower()` on one character (ASCII range). -/
def pyLowerChar (c : Char) : Char :=
  if 'A' ≤ c && c ≤ 'Z' then Char.ofNat (c.toNat + 32) else c

/-- Python `s.lower()` (ASCII range). -/
def pyLower (s : String) : String := ⟨s.data.map pyLowerChar⟩

/-- Python `c in s` for a single-character pattern. -/
def pyHasChar (s : String) (c : Char) : Bool := s.data.contains c

/-- One stored row of the `contacts` table. -/
structure Contact where
  id : Nat
  name : String
  email : String
  phone : String
  message : String
  created_at : Nat
deriving DecidableEq, Repr

/-- The state of the `contacts` table: its rows and the next
auto-increment id. -/
structure DB where
  rows : List Contact
  nextId : Nat
deriving DecidableEq, Repr

/-- An uncaught Python exception, carrying its server-side detail string. -/
inductive PyExc where
  | attributeError (detail : String)
  | typeError (detail : String)
deriving DecidableEq, Repr

/-- The exception's detail string (what would be logged server-side). -/
def PyExc.detail : PyExc → String
  | .attributeError d => d
  | .typeError d => d

/-- The `required_fields` list of `create_contact` (src/app.py line 95). -/
def required_fields : List String := ["name", "email", "message"]

/-- The required-fields loop of `create_contact` (src/app.py lines 96-98):
the first field of `required_fields` whose value is falsy, if any. -/
def firstFailingField (data : JObj) : Option String :=
  required_fields.find? (fun f => !pyTruthy (dictGet data f))

/-- The body of the `try` block of `create_contact` (src/app.py lines
91-126).  Returns either a status/body pair or the uncaught exception,
together with the database state afterwards and the number of
`pool.acquire` calls performed.  `body?` is the result of
`request.get_json()` (`none` when there was no JSON object to parse),
`now` is the wall clock stamped into `created_at`, and `dbFail` injects a
database error at the `cursor.execute` of the insert. -/
def create_step (body? : Option JObj) (db : DB) (now : Nat) (dbFail : Bool) :
    Except PyExc (Nat × JObj) × DB × Nat :=
  match body? with
  | none =>
      (.error (.attributeError "NoneType object has no attribute get"), db, 0)
  | some data =>
      match firstFailingField data with
      | some f => (.ok (400, [("error", .js (f ++ " is required"))]), db, 0)
      | none =>
          match dictGet data "email" with
          | some (.js email) =>
              if !(pyHasChar email '@') || !(pyHasChar email '.') then
                (.ok (400, [("error", .js "Invalid email format")]), db, 0)
              else
                match dictGet data "name" with
                | some (.js nm) =>
                    match dictGetD data "phone" (.js "") with
                    | .js ph =>
                        match dictGet data "message" with
                        | some (.js msg) =>
                            if dbFail then
                              (.error (.typeError "database error in execute"), db, 1)
                            else
                              (.ok (201,
                                    [("message", .js "Contact created successfully"),
                                     ("id", .jn db.nextId)]),
                               ⟨db.rows ++
                                  [⟨db.nextId, pyStrip nm, pyLower (pyStrip email),
                                    pyStrip ph, pyStrip msg, now⟩],
                                db.nextId + 1⟩, 1)
                        | _ =>
                            (.error (.attributeError
                              "message value has no attribute strip"), db, 1)
                    | _ =>
                        (.error (.attributeError
                          "phone value has no attribute strip"), db, 1)
                | _ =>
                    (.error (.attributeError
                      "name value has no attribute strip"), db, 1)
          | _ =>
              (.error (.typeError "argument of type non-string is not iterable"),
               db, 0)

/-- An HTTP response of the create handler, together with the resulting
database state and the number of pool acquisitions performed. -/
structure HttpOut where
  status : Nat
  body : JObj
  db : DB
  acquires : Nat
deriving DecidableEq, Repr

/-- The `create_contact` handler (src/app.py lines 88-130): runs the `try`
block and turns any exception into a generic 500 response. -/
def create_contact (body? : Option JObj) (db : DB) (now : Nat) (dbFail : Bool) :
    HttpOut :=
  match create_step body? db now dbFail with
  | (.ok (st, b), db2, acq) => ⟨st, b, db2, acq⟩
  | (.error _, db2, acq) => ⟨500, [("error", .js "Internal server error")], db2, acq⟩

/-- The ordering of `ORDER BY created_at DESC`: a row sorts before another
when its `created_at` is at least the other's. -/
def createdDesc (a b : Contact) : Prop := b.created_at ≤ a.created_at

instance : DecidableRel createdDesc := fun a b =>
  inferInstanceAs (Decidable (b.created_at ≤ a.created_at))

instance : IsTotal Contact createdDesc :=
  ⟨fun a b => le_total b.created_at a.created_at⟩

instance : IsTrans Contact createdDesc :=
  ⟨fun _ _ _ hab hbc => le_trans hbc hab⟩

/-- The body of the `try` block of `get_contacts` (src/app.py lines
136-151): the select of all rows ordered by `created_at` descending, or a
database error when `dbFail` is set; paired with the number of
`pool.acquire` calls performed. -/
def get_step (db : DB) (dbFail : Bool) : Except PyExc (List Contact) × Nat :=
  if dbFail then (.error (.typeError "database error in select"), 1)
  else (.ok (List.insertionSort createdDesc db.rows), 1)

/-- An HTTP response of the list handler: 200 with the contacts and their
count, or 500 with an error string. -/
inductive GetOut where
  | ok (contacts : List Contact) (count : Nat)
  | err (msg : String)
deriving DecidableEq, Repr

/-- The `get_contacts` handler (src/app.py lines 133-155): runs the `try`
block, pairs the rows with `len(contacts)`, and turns any exception into a
generic 500 response. -/
def get_contacts (db : DB) (dbFail : Bool) : GetOut :=
  match (get_step db dbFail).1 with
  | .ok cs => .ok cs cs.length
  | .error _ => .err "Internal server error"

/-- A field value that is either absent or a string (the shape a contact
form submits); used to read the claims' "absent or empty" in terms of the
code's truthiness test. -/
def strOrAbsentB (data : JObj) (f : String) : Bool :=
  match dictGet data f with
  | none => true
  | some (.js _) => true
  | some _ => false

/-- A field that is absent from the submission or bound to the empty
string. -/
def absentOrEmpty (data : JObj) (f : String) : Bool :=
  match dictGet data f with
  | none => true
  | some (.js s) => s == ""
  | some _ => false

/-- The validation checks of `create_contact` fail (src/app.py lines
94-103): some required field is falsy, or all pass and the email is a
string lacking "@" or lacking ".". -/
def failsValidationB (data : JObj) : Bool :=
  match firstFailingField data with
  | some _ => true
  | none =>
      match dictGet data "email" with
      | some (.js s) => !(pyHasChar s '@') || !(pyHasChar s '.')
      | _ => false

end GrowiBack

namespace GrowiBack

/-- For a field that is absent or a string, the code's truthiness failure
test coincides with the field being absent or the empty string. -/
theorem notTruthy_eq_absentOrEmpty (data : JObj) (g : String)
    (h : strOrAbsentB data g = true) :
    (!pyTruthy (dictGet data g)) = absentOrEmpty data g := by
  unfold strOrAbsentB at h
  unfold absentOrEmpty pyTruthy
  cases hg : dictGet data g with
  | none => rfl
  | some v =>
    rw [hg] at h
    cases v with
    | js s => simp [JVal.truthy]
    | jn n => simp at h
    | jb b => simp at h
    | jnull => simp at h

/-- When the three required fields are absent or strings, the required
loop fails exactly at the first field that is absent or empty. -/
theorem firstFailingField_eq_find_absentOrEmpty (data : JObj)
    (h : ∀ g ∈ required_fields, strOrAbsentB data g = true) :
    firstFailingField data
      = required_fields.find? (fun g => absentOrEmpty data g) := by
  have h1 := notTruthy_eq_absentOrEmpty data "name" (h _ (by simp [required_fields]))
  have h2 := notTruthy_eq_absentOrEmpty data "email" (h _ (by simp [required_fields]))
  have h3 := notTruthy_eq_absentOrEmpty data "message" (h _ (by simp [required_fields]))
  simp only [firstFailingField, required_fields, List.find?, h1, h2, h3]

/-- Claim C1: a submission whose three required-field values are strings
or absent, and in which at least one of `name`, `email`, `message` is
absent or empty, gets HTTP 400 with the message `"<f> is required"` for
the first such field `f` in the fixed order name, email, message; the
table is unchanged and no pooled connection is acquired. -/
theorem create_contact_missing_field_400
    (data : JObj) (db : DB) (now : Nat) (dbFail : Bool) (f : String)
    (hstr : ∀ g ∈ required_fields, strOrAbsentB data g = true)
    (hf : required_fields.find? (fun g => absentOrEmpty data g) = some f) :
    create_contact (some data) db now dbFail
      = ⟨400, [("error", JVal.js (f ++ " is required"))], db, 0⟩ := by
  have hff : firstFailingField data = some f :=
    (firstFailingField_eq_find_absentOrEmpty data hstr).trans hf
  simp only [create_contact, create_step, hff]

/-- Witness for C1: a body carrying only an email is answered with
"name is required" and no insert. -/
theorem create_contact_missing_field_400_witness :
    create_contact (some [("email", JVal.js "a@b.c")]) ⟨[], 1⟩ 0 false
      = ⟨400, [("error", JVal.js "name is required")], ⟨[], 1⟩, 0⟩ :=
  create_contact_missing_field_400 [("email", JVal.js "a@b.c")] ⟨[], 1⟩ 0 false
    "name" (by decide) (by decide)

/-- When the three required fields are bound to non-empty strings, the
required-fields loop of `create_contact` passes. -/
theorem firstFailingField_none (data : JObj) (nm email msg : String)
    (hn : dictGet data "name" = some (JVal.js nm)) (hn2 : nm ≠ "")
    (he : dictGet data "email" = some (JVal.js email)) (he2 : email ≠ "")
    (hm : dictGet data "message" = some (JVal.js msg)) (hm2 : msg ≠ "") :
    firstFailingField data = none := by
  have e1 : (nm == "") = false := beq_eq_false_iff_ne.mpr hn2
  have e2 : (email == "") = false := beq_eq_false_iff_ne.mpr he2
  have e3 : (msg == "") = false := beq_eq_false_iff_ne.mpr hm2
  simp only [firstFailingField, required_fields, List.find?, hn, he, hm]
  simp [pyTruthy, JVal.truthy, e1, e2, e3]

/-- Unfolding of the create path on a submission that passes validation
and has a string (or absent) phone, with no injected database error: the
trimmed row is appended and 201 is returned with the new id. -/
theorem create_step_success (data : JObj) (db : DB) (now : Nat)
    (nm email ph msg : String)
    (hn : dictGet data "name" = some (JVal.js nm)) (hn2 : nm ≠ "")
    (he : dictGet data "email" = some (JVal.js email)) (he2 : email ≠ "")
    (hm : dictGet data "message" = some (JVal.js msg)) (hm2 : msg ≠ "")
    (hp : dictGetD data "phone" (JVal.js "") = JVal.js ph)
    (hat : pyHasChar email '@' = true) (hdot : pyHasChar email '.' = true) :
    create_step (some data) db now false
      = (Except.ok (201,
            [("message", JVal.js "Contact created successfully"),
             ("id", JVal.jn db.nextId)]),
         ⟨db.rows ++
            [⟨db.nextId, pyStrip nm, pyLower (pyStrip email),
              pyStrip ph, pyStrip msg, now⟩],
          db.nextId + 1⟩, 1) := by
  have hff := firstFailingField_none data nm email msg hn hn2 he he2 hm hm2
  simp only [create_step, hff, he, hn, hp, hm, hat, hdot]
  simp

/-- Claim C2: when the required fields are present as non-empty strings
and the email lacks "@" or lacks ".", `create_contact` answers HTTP 400
with the invalid-email message and the table is unchanged. -/
theorem create_contact_bad_email_400
    (data : JObj) (db : DB) (now : Nat) (dbFail : Bool)
    (nm email msg : String)
    (hn : dictGet data "name" = some (JVal.js nm)) (hn2 : nm ≠ "")
    (he : dictGet data "email" = some (JVal.js email)) (he2 : email ≠ "")
    (hm : dictGet data "message" = some (JVal.js msg)) (hm2 : msg ≠ "")
    (hbad : pyHasChar email '@' = false ∨ pyHasChar email '.' = false) :
    create_contact (some data) db now dbFail
      = ⟨400, [("error", JVal.js "Invalid email format")], db, 0⟩ := by
  have hff := firstFailingField_none data nm email msg hn hn2 he he2 hm hm2
  have hcond : (!pyHasChar email '@' || !pyHasChar email '.') = true := by
    rcases hbad with h | h <;> simp [h]
  simp only [create_contact, create_step, hff, he, hcond]
  simp

/-- Witness for C2: email "a@b" (no dot) is rejected as invalid. -/
theorem create_contact_bad_email_400_witness :
    create_contact (some [("name", JVal.js "Jo"), ("email", JVal.js "a@b"),
        ("message", JVal.js "Hi")]) ⟨[], 1⟩ 0 false
      = ⟨400, [("error", JVal.js "Invalid email format")], ⟨[], 1⟩, 0⟩ :=
  create_contact_bad_email_400 _ _ _ _ "Jo" "a@b" "Hi"
    (by decide) (by decide) (by decide) (by decide) (by decide) (by decide)
    (Or.inr (by decide))

/-- Counterexample to claim C3: the email "a@b" contains "@" but lacks
".", yet the submission is rejected with 400 and not accepted — the code
rejects an email lacking "@" OR lacking ".", not only one lacking both. -/
theorem create_contact_email_at_no_dot_rejected :
    create_contact (some [("name", JVal.js "Jo"), ("email", JVal.js "a@b"),
        ("message", JVal.js "Hi")]) ⟨[], 1⟩ 5 false
      = ⟨400, [("error", JVal.js "Invalid email format")], ⟨[], 1⟩, 0⟩ ∧
    (create_contact (some [("name", JVal.js "Jo"), ("email", JVal.js "a@b"),
        ("message", JVal.js "Hi")]) ⟨[], 1⟩ 5 false).status ≠ 201 := by
  constructor
  · decide
  · decide

/-- Claim C3 as amended: with the required fields present as non-empty
strings, `create_contact` answers the invalid-email 400 exactly when the
email lacks "@" or lacks "." (so an email containing "@" but not "." is
rejected, not accepted). -/
theorem create_contact_invalid_email_iff
    (data : JObj) (db : DB) (now : Nat) (dbFail : Bool)
    (nm email msg : String)
    (hn : dictGet data "name" = some (JVal.js nm)) (hn2 : nm ≠ "")
    (he : dictGet data "email" = some (JVal.js email)) (he2 : email ≠ "")
    (hm : dictGet data "message" = some (JVal.js msg)) (hm2 : msg ≠ "") :
    ((create_contact (some data) db now dbFail).status = 400 ∧
     (create_contact (some data) db now dbFail).body
        = [("error", JVal.js "Invalid email format")])
      ↔ (pyHasChar email '@' = false ∨ pyHasChar email '.' = false) := by
  have hff := firstFailingField_none data nm email msg hn hn2 he he2 hm hm2
  constructor
  · intro hresp
    by_contra hok
    push_neg at hok
    rcases hok with ⟨hat, hdot⟩
    rw [Bool.ne_false_iff] at hat hdot
    have hcond : (!pyHasChar email '@' || !pyHasChar email '.') = false := by
      simp [hat, hdot]
    rcases hresp with ⟨h400, _⟩
    rw [create_contact] at h400
    simp only [create_step, hff, he, hcond, Bool.false_eq_true, if_false, hn] at h400
    rcases hp : dictGetD data "phone" (JVal.js "") with ph | n | b
    all_goals simp only [hp] at h400
    · simp only [hm] at h400
      cases dbFail <;> simp_all
    · simp_all
    · simp_all
    · simp_all
  · intro hbad
    have hcond : (!pyHasChar email '@' || !pyHasChar email '.') = true := by
      rcases hbad with h | h <;> simp [h]
    simp only [create_contact, create_step, hff, he, hcond]
    simp

/-- Witness for the amended C3 at a concrete input: for email "a@b" the
equivalence holds and the email indeed lacks ".". -/
theorem create_contact_invalid_email_iff_witness :
    (((create_contact (some [("name", JVal.js "Jo"), ("email", JVal.js "a@b"),
        ("message", JVal.js "Hi")]) ⟨[], 1⟩ 0 false).status = 400 ∧
      (create_contact (some [("name", JVal.js "Jo"), ("email", JVal.js "a@b"),
        ("message", JVal.js "Hi")]) ⟨[], 1⟩ 0 false).body
         = [("error", JVal.js "Invalid email format")])
       ↔ (pyHasChar "a@b" '@' = false ∨ pyHasChar "a@b" '.' = false)) ∧
    pyHasChar "a@b" '.' = false :=
  ⟨create_contact_invalid_email_iff _ _ _ _ "Jo" "a@b" "Hi"
      (by decide) (by decide) (by decide) (by decide) (by decide) (by decide),
   by decide⟩

/-- Claim C4: a submission that passes validation (required fields bound
to non-empty strings, email containing "@" and ".") with a string (or
absent) phone is answered with HTTP 201 carrying the success message and
the new id, and exactly one row is appended, storing the email stripped
and lower-cased and the name, phone and message stripped. -/
theorem create_contact_valid_201
    (data : JObj) (db : DB) (now : Nat) (nm email ph msg : String)
    (hn : dictGet data "name" = some (JVal.js nm)) (hn2 : nm ≠ "")
    (he : dictGet data "email" = some (JVal.js email)) (he2 : email ≠ "")
    (hm : dictGet data "message" = some (JVal.js msg)) (hm2 : msg ≠ "")
    (hp : dictGetD data "phone" (JVal.js "") = JVal.js ph)
    (hat : pyHasChar email '@' = true) (hdot : pyHasChar email '.' = true) :
    create_contact (some data) db now false
      = ⟨201,
         [("message", JVal.js "Contact created successfully"),
          ("id", JVal.jn db.nextId)],
         ⟨db.rows ++
            [⟨db.nextId, pyStrip nm, pyLower (pyStrip email),
              pyStrip ph, pyStrip msg, now⟩],
          db.nextId + 1⟩, 1⟩ := by
  have h := create_step_success data db now nm email ph msg
    hn hn2 he he2 hm hm2 hp hat hdot
  simp only [create_contact, h]

/-- Witness for C4: the spec's example submission; the email " A@B.com "
is stored as "a@b.com" and the name as "Jo". -/
theorem create_contact_valid_201_witness :
    create_contact (some [("name", JVal.js "Jo"), ("email", JVal.js " A@B.com "),
        ("phone", JVal.js ""), ("message", JVal.js "Hi")]) ⟨[], 1⟩ 7 false
      = ⟨201,
         [("message", JVal.js "Contact created successfully"), ("id", JVal.jn 1)],
         ⟨[⟨1, "Jo", "a@b.com", "", "Hi", 7⟩], 2⟩, 1⟩ :=
  create_contact_valid_201 _ ⟨[], 1⟩ 7 "Jo" " A@B.com " "" "Hi"
    (by decide) (by decide) (by decide) (by decide) (by decide) (by decide)
    (by decide) (by decide) (by decide)

/-- Counterexample to claim C5: the whitespace-only name " " is truthy,
so the submission is accepted with 201, yet the stored name is the empty
string after stripping. -/
theorem create_contact_blank_name_stored_empty :
    (create_contact (some [("name", JVal.js " "), ("email", JVal.js "a@b.c"),
        ("message", JVal.js "Hi")]) ⟨[], 1⟩ 0 false).status = 201 ∧
    (create_contact (some [("name", JVal.js " "), ("email", JVal.js "a@b.c"),
        ("message", JVal.js "Hi")]) ⟨[], 1⟩ 0 false).db.rows
      = [⟨1, "", "a@b.c", "", "Hi", 0⟩] := by
  constructor
  · decide
  · decide

/-- Claim C5 as amended: a successful create appends exactly one row whose
stored name and message are the stripped submitted strings; they are
non-empty whenever the submitted name and message do not strip to the
empty string (a whitespace-only submitted name or message is accepted and
stored as empty text). -/
theorem create_contact_stored_name_message
    (data : JObj) (db : DB) (now : Nat) (nm email ph msg : String)
    (hn : dictGet data "name" = some (JVal.js nm)) (hn2 : nm ≠ "")
    (he : dictGet data "email" = some (JVal.js email)) (he2 : email ≠ "")
    (hm : dictGet data "message" = some (JVal.js msg)) (hm2 : msg ≠ "")
    (hp : dictGetD data "phone" (JVal.js "") = JVal.js ph)
    (hat : pyHasChar email '@' = true) (hdot : pyHasChar email '.' = true)
    (hnm : pyStrip nm ≠ "") (hms : pyStrip msg ≠ "") :
    ∃ r : Contact,
      (create_contact (some data) db now false).db.rows = db.rows ++ [r] ∧
      r.name = pyStrip nm ∧ r.message = pyStrip msg ∧
      r.name ≠ "" ∧ r.message ≠ "" := by
  have h := create_step_success data db now nm email ph msg
    hn hn2 he he2 hm hm2 hp hat hdot
  refine ⟨⟨db.nextId, pyStrip nm, pyLower (pyStrip email),
           pyStrip ph, pyStrip msg, now⟩, ?_, rfl, rfl, hnm, hms⟩
  simp only [create_contact, h]

/-- Witness for the amended C5 at a concrete input. -/
theorem create_contact_stored_name_message_witness :
    ∃ r : Contact,
      (create_contact (some [("name", JVal.js " Jo "), ("email", JVal.js "a@b.c"),
          ("message", JVal.js "Hi")]) ⟨[], 1⟩ 0 false).db.rows = [] ++ [r] ∧
      r.name = pyStrip " Jo " ∧ r.message = pyStrip "Hi" ∧
      r.name ≠ "" ∧ r.message ≠ "" :=
  create_contact_stored_name_message _ ⟨[], 1⟩ 0 " Jo " "a@b.c" "" "Hi"
    (by decide) (by decide) (by decide) (by decide) (by decide) (by decide)
    (by decide) (by decide) (by decide) (by decide) (by decide)

/-- Claim C6: when the validation checks fail, `create_contact` answers
400, the table is unchanged, and no pooled connection is acquired. -/
theorem create_contact_validation_failure_no_storage
    (data : JObj) (db : DB) (now : Nat) (dbFail : Bool)
    (h : failsValidationB data = true) :
    (create_contact (some data) db now dbFail).status = 400 ∧
    (create_contact (some data) db now dbFail).db = db ∧
    (create_contact (some data) db now dbFail).acquires = 0 := by
  unfold failsValidationB at h
  cases hff : firstFailingField data with
  | some f =>
    simp [create_contact, create_step, hff]
  | none =>
    rw [hff] at h
    cases he : dictGet data "email" with
    | none => rw [he] at h; simp at h
    | some v =>
      rw [he] at h
      cases v with
      | js s =>
        simp only at h
        simp [create_contact, create_step, hff, he, h]
      | jn n => simp at h
      | jb b => simp at h
      | jnull => simp at h

/-- Witness for C6: a submission with an empty message fails validation
and touches no storage. -/
theorem create_contact_validation_failure_no_storage_witness :
    (create_contact (some [("name", JVal.js "Jo"), ("email", JVal.js "a@b.c"),
        ("message", JVal.js "")]) ⟨[], 1⟩ 0 false).status = 400 ∧
    (create_contact (some [("name", JVal.js "Jo"), ("email", JVal.js "a@b.c"),
        ("message", JVal.js "")]) ⟨[], 1⟩ 0 false).db = ⟨[], 1⟩ ∧
    (create_contact (some [("name", JVal.js "Jo"), ("email", JVal.js "a@b.c"),
        ("message", JVal.js "")]) ⟨[], 1⟩ 0 false).acquires = 0 :=
  create_contact_validation_failure_no_storage _ ⟨[], 1⟩ 0 false (by decide)

/-- Claim C7: a successful list-contacts response is a permutation of all
stored rows ordered by `created_at` descending: a row with a strictly
larger `created_at` appears at a strictly smaller index, so rows inserted
at times t1 < t2 < t3 are listed t3 first, then t2, then t1. -/
theorem get_contacts_sorted_desc
    (db : DB) (cs : List Contact) (n : Nat)
    (hok : get_contacts db false = GetOut.ok cs n)
    (i j : Nat) (hi : i < cs.length) (hj : j < cs.length)
    (hlt : (cs.get ⟨i, hi⟩).created_at < (cs.get ⟨j, hj⟩).created_at) :
    cs.Perm db.rows ∧ j < i := by
  have h2 : GetOut.ok (List.insertionSort createdDesc db.rows)
      (List.insertionSort createdDesc db.rows).length = GetOut.ok cs n := hok
  injection h2 with h3 h4
  subst h3
  refine ⟨List.perm_insertionSort _ _, ?_⟩
  have hsorted := List.sorted_insertionSort createdDesc db.rows
  rw [List.Sorted, List.pairwise_iff_get] at hsorted
  rcases lt_trichotomy i j with hij | hij | hij
  · have := hsorted ⟨i, hi⟩ ⟨j, hj⟩ hij
    exact absurd hlt (not_lt.mpr this)
  · subst hij
    exact absurd hlt (lt_irrefl _)
  · exact hij

/-- Witness for C7: with rows stamped 1 and 2, the row stamped 2 is
listed at index 0, before the row stamped 1 at index 1. -/
theorem get_contacts_sorted_desc_witness :
    ([⟨2, "b", "b@c.d", "", "m", 2⟩, ⟨1, "a", "a@b.c", "", "m", 1⟩] :
        List Contact).Perm
      [⟨1, "a", "a@b.c", "", "m", 1⟩, ⟨2, "b", "b@c.d", "", "m", 2⟩] ∧
    (0 : Nat) < 1 :=
  get_contacts_sorted_desc
    ⟨[⟨1, "a", "a@b.c", "", "m", 1⟩, ⟨2, "b", "b@c.d", "", "m", 2⟩], 3⟩
    [⟨2, "b", "b@c.d", "", "m", 2⟩, ⟨1, "a", "a@b.c", "", "m", 1⟩] 2
    (by decide) 1 0 (by decide) (by decide) (by decide)

/-- Claim C8: in every successful list-contacts response the count equals
the length of the returned contacts sequence. -/
theorem get_contacts_count_eq_length
    (db : DB) (dbFail : Bool) (cs : List Contact) (n : Nat)
    (h : get_contacts db dbFail = GetOut.ok cs n) : n = cs.length := by
  cases dbFail with
  | true => exact absurd h (by simp [get_contacts, get_step])
  | false =>
    have h2 : GetOut.ok (List.insertionSort createdDesc db.rows)
        (List.insertionSort createdDesc db.rows).length = GetOut.ok cs n := h
    injection h2 with h3 h4
    subst h3
    exact h4.symm

/-- Witness for C8: a one-row table gives count 1 and one contact. -/
theorem get_contacts_count_eq_length_witness :
    (1 : Nat) = ([⟨1, "Jo", "a@b.c", "", "Hi", 0⟩] : List Contact).length :=
  get_contacts_count_eq_length ⟨[⟨1, "Jo", "a@b.c", "", "Hi", 0⟩], 2⟩ false
    [⟨1, "Jo", "a@b.c", "", "Hi", 0⟩] 1 (by decide)

/-- Claim C9: whenever the body of either handler's `try` block raises an
exception — whatever its server-side detail — the handler answers HTTP 500
whose body is exactly the fixed generic string, so no detail of the
exception reaches the caller. -/
theorem handlers_exception_generic_500
    (body? : Option JObj) (db : DB) (now : Nat) (dbFail : Bool) (e : PyExc)
    (db2 : DB) (f2 : Bool) (e2 : PyExc)
    (hc : (create_step body? db now dbFail).1 = Except.error e)
    (hg : (get_step db2 f2).1 = Except.error e2) :
    (create_contact body? db now dbFail).status = 500 ∧
    (create_contact body? db now dbFail).body
      = [("error", JVal.js "Internal server error")] ∧
    get_contacts db2 f2 = GetOut.err "Internal server error" := by
  rcases hs : create_step body? db now dbFail with ⟨res, db3, acq⟩
  rw [hs] at hc
  simp only at hc
  cases res with
  | ok p => simp at hc
  | error a =>
    refine ⟨?_, ?_, ?_⟩
    · simp [create_contact, hs]
    · simp [create_contact, hs]
    · cases f2 with
      | false => simp [get_step] at hg
      | true => simp [get_contacts, get_step]

/-- Witness for C9: an unparsable body makes `create_contact` raise and
answer the generic 500; an injected database error does the same for
`get_contacts`. -/
theorem handlers_exception_generic_500_witness :
    (create_contact none ⟨[], 1⟩ 0 false).status = 500 ∧
    (create_contact none ⟨[], 1⟩ 0 false).body
      = [("error", JVal.js "Internal server error")] ∧
    get_contacts ⟨[], 1⟩ true = GetOut.err "Internal server error" :=
  handlers_exception_generic_500 none ⟨[], 1⟩ 0 false
    (PyExc.attributeError "NoneType object has no attribute get") ⟨[], 1⟩ true
    (PyExc.typeError "database error in select") rfl rfl

/-- Claim C10: a submission whose required fields pass validation but
whose phone is present with a non-string value makes the insert raise, so
`create_contact` answers the generic 500 (after acquiring a connection)
and no row is inserted — the phone is neither treated as absent nor
answered with a 400. -/
theorem create_contact_nonstring_phone_500
    (data : JObj) (db : DB) (now : Nat) (nm email msg : String) (v : JVal)
    (hn : dictGet data "name" = some (JVal.js nm)) (hn2 : nm ≠ "")
    (he : dictGet data "email" = some (JVal.js email)) (he2 : email ≠ "")
    (hm : dictGet data "message" = some (JVal.js msg)) (hm2 : msg ≠ "")
    (hat : pyHasChar email '@' = true) (hdot : pyHasChar email '.' = true)
    (hp : dictGet data "phone" = some v)
    (hv : ∀ s, v ≠ JVal.js s) :
    create_contact (some data) db now false
      = ⟨500, [("error", JVal.js "Internal server error")], db, 1⟩ := by
  have hff := firstFailingField_none data nm email msg hn hn2 he he2 hm hm2
  have hpd : dictGetD data "phone" (JVal.js "") = v := by
    simp [dictGetD, hp]
  have hcond : (!pyHasChar email '@' || !pyHasChar email '.') = false := by
    simp [hat, hdot]
  cases v with
  | js s => exact absurd rfl (hv s)
  | jn k => simp [create_contact, create_step, hff, he, hcond, hn, hpd]
  | jb b => simp [create_contact, create_step, hff, he, hcond, hn, hpd]
  | jnull => simp [create_contact, create_step, hff, he, hcond, hn, hpd]

/-- Witness for C10: a valid submission with `phone` bound to null is
answered 500 and inserts nothing. -/
theorem create_contact_nonstring_phone_500_witness :
    create_contact (some [("name", JVal.js "Jo"), ("email", JVal.js "a@b.c"),
        ("phone", JVal.jnull), ("message", JVal.js "Hi")]) ⟨[], 1⟩ 0 false
      = ⟨500, [("error", JVal.js "Internal server error")], ⟨[], 1⟩, 1⟩ :=
  create_contact_nonstring_phone_500 _ ⟨[], 1⟩ 0 "Jo" "a@b.c" "Hi" JVal.jnull
    (by decide) (by decide) (by decide) (by decide) (by decide) (by decide)
    (by decide) (by decide) (by decide)
    (fun s h => JVal.noConfusion h)

end GrowiBack
